import Mathlib

/-
Shallow embedding of src/app.py (Dice job applier, Flask + Playwright).

External interactions (browser launch, page navigation, element waits, clicks,
typing, screenshot writes) are modelled by environment records that fix the
outcome of each interaction: a wait that succeeds within its timeout is
modelled by the time (in milliseconds) at which the element becomes available,
and other interactions by a Bool (does the call return normally).  Wall-clock
times are natural numbers of seconds; the functions below mirror the control
flow of the Python source line by line.
-/

/- Module-level constants of app.py (lines 24-25). -/

def MIN_WAIT_BETWEEN_APPS : Nat := 120

def MAX_WAIT_BETWEEN_APPS : Nat := 180

/- Global mutable state of app.py (lines 28-29): last_application_time is a
datetime or None, modelled as an optional timestamp in whole seconds;
application_count is an integer counter. -/

structure GlobalState where
  last_application_time : Option Nat
  application_count : Nat
  deriving DecidableEq

def initialState : GlobalState := { last_application_time := none, application_count := 0 }

/- Python timedelta.seconds for a non-negative delta of d whole seconds: the
seconds component after normalisation into days + seconds, i.e. d mod 86400.
This is what line 63 of app.py computes (it does not call total_seconds). -/

def timedeltaSeconds (d : Nat) : Nat := d % 86400

/- enforce_human_pacing (app.py lines 58-69).  Returns the number of seconds
passed to time.sleep (0 when no sleep happens).  last is the global
last_application_time, now the value of datetime.now() at the call, and
required_wait the value returned by random.randint(MIN_WAIT_BETWEEN_APPS,
MAX_WAIT_BETWEEN_APPS). -/

def enforce_human_pacing (last : Option Nat) (now : Nat) (required_wait : Nat) : Nat :=
  match last with
  | none => 0
  | some t0 =>
    let time_since_last := timedeltaSeconds (now - t0)
    if time_since_last < required_wait then required_wait - time_since_last else 0

/- A Playwright wait_for call with the given timeout in milliseconds succeeds
exactly when the element becomes available within the timeout.  none models an
element that never becomes available. -/

def waitForVisible (visible_at : Option Nat) (timeout_ms : Nat) : Bool :=
  match visible_at with
  | none => false
  | some t => t ≤ timeout_ms

/- Substring test, modelling the Python expression (pat in s). -/

def listStartsWith : List Char → List Char → Bool
  | _, [] => true
  | [], _ :: _ => false
  | a :: as, b :: bs => a == b && listStartsWith as bs

def listContainsSub : List Char → List Char → Bool
  | [], pat => pat.isEmpty
  | a :: as, pat => listStartsWith (a :: as) pat || listContainsSub as pat

def strContains (s : String) (pat : String) : Bool := listContainsSub s.data pat.data

/- Python exceptions relevant to create_browser. -/

inductive PyExc
  | nameError (n : String)
  | launchError (msg : String)
  deriving DecidableEq

def excMessage : PyExc → String
  | .nameError n => "name \x27" ++ n ++ "\x27 is not defined"
  | .launchError m => m

/- Names bound at module level in app.py (imports, constants, globals and
function definitions), used to resolve a bare name occurring in a function
body after the local scope misses.  The Python keyword constants True, False
and None are listed separately: they are the only spellings of the boolean and
null literals, and the builtins module binds no lowercase variants. -/

def moduleLevelNames : List String :=
  ["Flask", "request", "jsonify", "async_playwright", "asyncio", "time",
   "random", "logging", "os", "datetime", "wraps", "logger", "app",
   "DICE_EMAIL", "DICE_PASSWORD", "DEBUG_MODE", "MIN_WAIT_BETWEEN_APPS",
   "MAX_WAIT_BETWEEN_APPS", "last_application_time", "application_count",
   "async_route", "random_delay", "human_mouse_movement",
   "enforce_human_pacing", "create_browser", "login_to_dice",
   "wait_for_easy_apply_button", "apply_to_job", "apply_endpoint", "health"]

def pythonKeywordConstants : List String := ["True", "False", "None"]

/- Resolution of a bare name against the local scope, then the module scope,
then the keyword constants; an unbound name raises NameError. -/

def lookupName (locals : List String) (n : String) : Except PyExc Unit :=
  if locals.contains n || moduleLevelNames.contains n || pythonKeywordConstants.contains n
  then .ok () else .error (.nameError n)

/- create_browser (app.py lines 71-135).  debug_mode is the DEBUG_MODE
constant; launch_ok says whether playwright.chromium.launch returns normally
once its arguments have been evaluated.  In the production branch (line 94)
the keyword argument is written headless=false: the bare name false is looked
up in the local scope (playwright, user_agents), the module scope and the
keyword constants, and is bound nowhere, so evaluating the launch call raises
NameError before the browser is launched. -/

def create_browser (debug_mode : Bool) (launch_ok : Bool) : Except PyExc Unit :=
  if debug_mode then
    if launch_ok then .ok () else .error (.launchError "browser launch failed")
  else
    match lookupName ["playwright", "user_agents"] "false" with
    | .error e => .error e
    | .ok _ => if launch_ok then .ok () else .error (.launchError "browser launch failed")

/- Environment of one login_to_dice run (app.py lines 137-196): outcome of the
navigation, each element wait (time in ms at which the element becomes
visible), each typing loop and click, and the page URL read at line 182. -/

structure LoginEnv where
  goto_ok : Bool
  email_visible_at : Option Nat
  email_type_ok : Bool
  continue_visible_at : Option Nat
  continue_click_ok : Bool
  password_visible_at : Option Nat
  password_type_ok : Bool
  signin_visible_at : Option Nat
  signin_click_ok : Bool
  final_url : String
  deriving DecidableEq

/- login_to_dice (app.py lines 137-196).  Every step runs inside one try
block: any failing step transfers to the except handler, which attempts a
screenshot (its own failure is swallowed by a bare except) and returns False;
so the function is total and never propagates an exception.  The timeouts are
the literal arguments of the source: email wait 30000 ms (line 150), continue
wait 20000 ms (line 160), password wait 50000 ms (line 167), sign-in wait
20000 ms (line 176).  On reaching line 182 the result is the URL test. -/

def login_to_dice (env : LoginEnv) : Bool :=
  if !env.goto_ok then false
  else if !(waitForVisible env.email_visible_at 30000) then false
  else if !env.email_type_ok then false
  else if !(waitForVisible env.continue_visible_at 20000) then false
  else if !env.continue_click_ok then false
  else if !(waitForVisible env.password_visible_at 50000) then false
  else if !env.password_type_ok then false
  else if !(waitForVisible env.signin_visible_at 20000) then false
  else if !env.signin_click_ok then false
  else strContains env.final_url "dashboard" || strContains env.final_url "jobs"

/- Conjunction of all step outcomes of a login run, excluding the URL test. -/

def loginStepsOk (env : LoginEnv) : Bool :=
  env.goto_ok && waitForVisible env.email_visible_at 30000 && env.email_type_ok &&
  waitForVisible env.continue_visible_at 20000 && env.continue_click_ok &&
  waitForVisible env.password_visible_at 50000 && env.password_type_ok &&
  waitForVisible env.signin_visible_at 20000 && env.signin_click_ok

/- The candidate selectors of wait_for_easy_apply_button (app.py lines
200-204), in source order; candidate i of a ResolverEnv stands for
selectors[i]. -/

def selectors : List String :=
  ["button[data-cy=\x27apply-button-card\x27]",
   "button:has-text(\x27Easy Apply\x27)",
   "button:has-text(\x27Apply\x27)"]

/- Environment of one candidate locator: time in ms at which it becomes
visible, time at which it becomes enabled, and whether the scroll into view
returns normally. -/

structure CandidateEnv where
  visible_at : Option Nat
  enabled_at : Option Nat
  scroll_ok : Bool
  deriving DecidableEq

/- One iteration of the for loop (app.py lines 212-228): the candidate
succeeds when it becomes visible within 20000 ms, enabled within 10000 ms and
the scroll returns normally; any failure is caught by the except and the loop
continues with the next selector. -/

def tryCandidate (c : CandidateEnv) : Bool :=
  waitForVisible c.visible_at 20000 && waitForVisible c.enabled_at 10000 && c.scroll_ok

/- The loop over the candidates, started at index i: returns the list of
indices attempted, in order, and the index of the first successful candidate
if any.  A success ends the loop at once. -/

def tryCandidates : Nat → List CandidateEnv → List Nat × Option Nat
  | _, [] => ([], none)
  | i, c :: rest =>
    if tryCandidate c then ([i], some i)
    else
      let p := tryCandidates (i + 1) rest
      (i :: p.1, p.2)

structure ResolverEnv where
  load_ok : Bool
  candidates : List CandidateEnv
  screenshot_ok : Bool
  deriving DecidableEq

/- Outcome of wait_for_easy_apply_button: found is the index of the returned
candidate (none when the function raises), errorMsg the message of the raised
exception when found is none, attempted the indices tried in order, and shots
the screenshot files written. -/

structure ResolveOutcome where
  found : Option Nat
  errorMsg : String
  attempted : List Nat
  shots : List String
  deriving DecidableEq

/- wait_for_easy_apply_button (app.py lines 198-232).  First waits for the
networkidle load state (60000 ms budget); then tries the candidates in order;
if none succeeds, writes no_easy_apply_button.png (line 231, not wrapped in a
try: a screenshot failure propagates in place of the not-found error) and
raises the Exception of line 232. -/

def wait_for_easy_apply_button (env : ResolverEnv) : ResolveOutcome :=
  if !env.load_ok then
    { found := none, errorMsg := "Timeout waiting for networkidle load state",
      attempted := [], shots := [] }
  else
    match (tryCandidates 0 env.candidates).2 with
    | some i =>
      { found := some i, errorMsg := "",
        attempted := (tryCandidates 0 env.candidates).1, shots := [] }
    | none =>
      if env.screenshot_ok then
        { found := none, errorMsg := "Easy Apply button not found with any selector",
          attempted := (tryCandidates 0 env.candidates).1,
          shots := ["no_easy_apply_button.png"] }
      else
        { found := none, errorMsg := "screenshot write failed",
          attempted := (tryCandidates 0 env.candidates).1, shots := [] }

/- The record returned by apply_to_job (app.py lines 291-296 and 306-311).
The success dict has keys status, job_url, application_number, timestamp; the
failure dict has keys status, job_url, error, timestamp.  Neither dict has a
screenshot key, so the screenshot field below is none in both outcomes; the
optional fields model absent keys. -/

structure ApplicationResult where
  status : String
  job_url : String
  application_number : Option Nat
  error : Option String
  timestamp : Nat
  screenshot : Option String
  deriving DecidableEq

/- Workflow steps of apply_to_job, in source order.  human_mouse_movement
(lines 44-56) swallows every exception internally and the delay helpers do not
raise, so simulateReading and reviewForm cannot fail. -/

inductive WfStep
  | navigateToJob
  | simulateReading
  | locateEasyApply
  | clickEasyApply
  | reviewForm
  | clickNext
  | clickSubmit
  deriving DecidableEq

/- Environment of one apply_to_job run (app.py lines 234-311). -/

structure ApplyEnv where
  goto_ok : Bool
  resolver : ResolverEnv
  easy_click_ok : Bool
  next_visible_at : Option Nat
  next_click_ok : Bool
  submit_visible_at : Option Nat
  submit_click_ok : Bool
  fail_screenshot_ok : Bool
  now : Nat
  deriving DecidableEq

structure WorkflowOutcome where
  result : ApplicationResult
  state : GlobalState
  steps : List WfStep
  shots : List String

/- The failure branch of apply_to_job (lines 298-311): best-effort screenshot
(failure swallowed by the bare except of line 304), then the failure dict. -/

def failResult (env : ApplyEnv) (url : String) (msg : String) : ApplicationResult :=
  { status := "failed", job_url := url, application_number := none,
    error := some msg, timestamp := env.now, screenshot := none }

def failShots (env : ApplyEnv) (shots : List String) : List String :=
  if env.fail_screenshot_ok then shots ++ ["error_" ++ toString env.now ++ ".png"]
  else shots

/- apply_to_job (app.py lines 234-311).  The whole body runs inside one try
block; the first failing step transfers to the except handler, which produces
the failure record without touching the globals.  Only the full success path
(line 285-287) updates last_application_time and application_count.  The Next
and Submit waits use 30000 ms budgets (lines 270 and 279). -/

def apply_to_job (env : ApplyEnv) (st : GlobalState) (url : String) : WorkflowOutcome :=
  if !env.goto_ok then
    { result := failResult env url "Timeout 90000ms exceeded while navigating",
      state := st, steps := [.navigateToJob], shots := failShots env [] }
  else
    match (wait_for_easy_apply_button env.resolver).found with
    | none =>
      { result := failResult env url (wait_for_easy_apply_button env.resolver).errorMsg,
        state := st,
        steps := [.navigateToJob, .simulateReading, .locateEasyApply],
        shots := failShots env (wait_for_easy_apply_button env.resolver).shots }
    | some _ =>
      if !env.easy_click_ok then
        { result := failResult env url "click on Easy Apply failed", state := st,
          steps := [.navigateToJob, .simulateReading, .locateEasyApply, .clickEasyApply],
          shots := failShots env (wait_for_easy_apply_button env.resolver).shots }
      else if !(waitForVisible env.next_visible_at 30000) then
        { result := failResult env url "Timeout waiting for Next button", state := st,
          steps := [.navigateToJob, .simulateReading, .locateEasyApply, .clickEasyApply,
                    .reviewForm, .clickNext],
          shots := failShots env (wait_for_easy_apply_button env.resolver).shots }
      else if !env.next_click_ok then
        { result := failResult env url "click on Next failed", state := st,
          steps := [.navigateToJob, .simulateReading, .locateEasyApply, .clickEasyApply,
                    .reviewForm, .clickNext],
          shots := failShots env (wait_for_easy_apply_button env.resolver).shots }
      else if !(waitForVisible env.submit_visible_at 30000) then
        { result := failResult env url "Timeout waiting for Submit button", state := st,
          steps := [.navigateToJob, .simulateReading, .locateEasyApply, .clickEasyApply,
                    .reviewForm, .clickNext, .clickSubmit],
          shots := failShots env (wait_for_easy_apply_button env.resolver).shots }
      else if !env.submit_click_ok then
        { result := failResult env url "click on Submit failed", state := st,
          steps := [.navigateToJob, .simulateReading, .locateEasyApply, .clickEasyApply,
                    .reviewForm, .clickNext, .clickSubmit],
          shots := failShots env (wait_for_easy_apply_button env.resolver).shots }
      else
        { result := { status := "success", job_url := url,
                      application_number := some (st.application_count + 1),
                      error := none, timestamp := env.now, screenshot := none },
          state := { last_application_time := some env.now,
                     application_count := st.application_count + 1 },
          steps := [.navigateToJob, .simulateReading, .locateEasyApply, .clickEasyApply,
                    .reviewForm, .clickNext, .clickSubmit],
          shots := (wait_for_easy_apply_button env.resolver).shots }

/- Conjunction of all step outcomes of one apply_to_job run: exactly the runs
that reach the success branch. -/

def applyStepsOk (env : ApplyEnv) : Bool :=
  env.goto_ok && (wait_for_easy_apply_button env.resolver).found.isSome &&
  env.easy_click_ok && waitForVisible env.next_visible_at 30000 && env.next_click_ok &&
  waitForVisible env.submit_visible_at 30000 && env.submit_click_ok

/- Externally visible operations performed by one apply_endpoint run, in
order: the pacing sleep (with its duration), the create_browser call, the
login_to_dice call, the apply_to_job call, and the browser teardown of the
finally block (which runs only when create_browser returned a browser). -/

inductive AppAction
  | sleepPacing (n : Nat)
  | createSession
  | login
  | workflow
  | closeBrowser
  deriving DecidableEq

structure HttpResponse where
  code : Nat
  message : Option String
  result : Option ApplicationResult
  deriving DecidableEq

/- Environment of one POST /apply request: the parsed job_url (none when the
key is absent), the clock at the pacing check, the value sampled by
random.randint for the pacing wait, the DEBUG_MODE constant, the browser
launch outcome, and the environments of the login and workflow runs. -/

structure RequestEnv where
  job_url : Option String
  now : Nat
  required_wait : Nat
  debug_mode : Bool
  launch_ok : Bool
  login : LoginEnv
  workflowEnv : ApplyEnv
  deriving DecidableEq

structure EndpointOutcome where
  response : HttpResponse
  state : GlobalState
  actions : List AppAction
  shots : List String

/- apply_endpoint (app.py lines 313-359).  A missing or empty job_url (Python
truthiness of line 320) yields 400 before pacing.  Pacing runs next (line
324), then create_browser; a raised exception there is caught by the except of
line 347 and becomes a 500 whose message is str(e), with no browser to close.
A False from login_to_dice yields the 500 of line 335 without running the
workflow; otherwise the workflow result is returned with code 200 whatever its
status.  The finally block closes the browser whenever create_browser
returned one. -/

def apply_endpoint (env : RequestEnv) (st : GlobalState) : EndpointOutcome :=
  match env.job_url with
  | none =>
    { response := { code := 400, message := some "No job URL", result := none },
      state := st, actions := [], shots := [] }
  | some url =>
    if url.isEmpty then
      { response := { code := 400, message := some "No job URL", result := none },
        state := st, actions := [], shots := [] }
    else
      let w := enforce_human_pacing st.last_application_time env.now env.required_wait
      let pacing : List AppAction := if w > 0 then [.sleepPacing w] else []
      match create_browser env.debug_mode env.launch_ok with
      | .error e =>
        { response := { code := 500, message := some (excMessage e), result := none },
          state := st, actions := pacing ++ [.createSession], shots := [] }
      | .ok _ =>
        if login_to_dice env.login then
          let out := apply_to_job env.workflowEnv st url
          { response := { code := 200, message := none, result := some out.result },
            state := out.state,
            actions := pacing ++ [.createSession, .login, .workflow, .closeBrowser],
            shots := out.shots }
        else
          { response := { code := 500, message := some "Login failed", result := none },
            state := st,
            actions := pacing ++ [.createSession, .login, .closeBrowser],
            shots := [] }

/- Concrete environments used by witnesses and counterexamples. -/

def loginOkEnv : LoginEnv :=
  { goto_ok := true, email_visible_at := some 1000, email_type_ok := true,
    continue_visible_at := some 1000, continue_click_ok := true,
    password_visible_at := some 1000, password_type_ok := true,
    signin_visible_at := some 1000, signin_click_ok := true,
    final_url := "https://www.dice.com/dashboard" }

def candidateOk : CandidateEnv :=
  { visible_at := some 1000, enabled_at := some 1000, scroll_ok := true }

def candidateFail : CandidateEnv :=
  { visible_at := none, enabled_at := none, scroll_ok := false }

def resolverOkEnv : ResolverEnv :=
  { load_ok := true, candidates := [candidateOk, candidateFail, candidateFail],
    screenshot_ok := true }

def resolverSecondEnv : ResolverEnv :=
  { load_ok := true, candidates := [candidateFail, candidateOk, candidateFail],
    screenshot_ok := true }

def applyOkEnv : ApplyEnv :=
  { goto_ok := true, resolver := resolverOkEnv, easy_click_ok := true,
    next_visible_at := some 1000, next_click_ok := true,
    submit_visible_at := some 1000, submit_click_ok := true,
    fail_screenshot_ok := true, now := 1000 }

def loginLateContinueEnv : LoginEnv :=
  { loginOkEnv with continue_visible_at := some 25000 }

def reqLoginFailEnv : RequestEnv :=
  { job_url := some "https://www.dice.com/job-detail/abc", now := 500, required_wait := 120,
    debug_mode := true, launch_ok := true,
    login := { loginOkEnv with final_url := "https://www.dice.com/signin" },
    workflowEnv := applyOkEnv }

/- Helper lemmas. -/

theorem login_to_dice_eq (env : LoginEnv) :
    login_to_dice env =
      (loginStepsOk env &&
        (strContains env.final_url "dashboard" || strContains env.final_url "jobs")) := by
  unfold login_to_dice loginStepsOk
  cases h1 : env.goto_ok <;> simp [h1]
  cases h2 : waitForVisible env.email_visible_at 30000 <;> simp [h2]
  cases h3 : env.email_type_ok <;> simp [h3]
  cases h4 : waitForVisible env.continue_visible_at 20000 <;> simp [h4]
  cases h5 : env.continue_click_ok <;> simp [h5]
  cases h6 : waitForVisible env.password_visible_at 50000 <;> simp [h6]
  cases h7 : env.password_type_ok <;> simp [h7]
  cases h8 : waitForVisible env.signin_visible_at 20000 <;> simp [h8]

theorem mem_pacing_append (w : Nat) (a : AppAction) (l : List AppAction) (hl : a ∈ l) :
    a ∈ (if w > 0 then [AppAction.sleepPacing w] else []) ++ l :=
  List.mem_append_right _ hl

theorem not_mem_pacing_append (w : Nat) (a : AppAction) (l : List AppAction)
    (ha : ∀ n, a ≠ AppAction.sleepPacing n) (hl : a ∉ l) :
    a ∉ (if w > 0 then [AppAction.sleepPacing w] else []) ++ l := by
  intro hmem
  rcases List.mem_append.mp hmem with hp | hq
  · revert hp
    split
    · intro hp
      exact ha w (List.mem_singleton.mp hp)
    · intro hp
      exact absurd hp (List.not_mem_nil a)
  · exact hl hq

/-- Claim C2 (code bug): the pacing policy is meant to impose no wait once the
elapsed time since the last application reaches the sampled required wait, but
enforce_human_pacing computes the elapsed time with timedelta.seconds, which
is the total elapsed time modulo 86400; at one day plus 60 seconds after the
last application, with a sampled wait of 150 seconds (inside the 120-180
range), the code sleeps 90 seconds even though far more than the required
wait has elapsed.  When no prior application exists the code correctly
imposes no wait. -/
theorem C2_pacing_wraps_after_one_day :
    MIN_WAIT_BETWEEN_APPS ≤ 150 ∧ 150 ≤ MAX_WAIT_BETWEEN_APPS ∧
    150 ≤ 86460 - 0 ∧
    timedeltaSeconds (86460 - 0) = 60 ∧
    enforce_human_pacing (some 0) 86460 150 = 90 ∧
    enforce_human_pacing none 86460 150 = 0 := by decide

/-- Claim C9 (amended): during login, the wait for the continue control is
budgeted at 20 seconds, not 30: with every other login step succeeding and a
final URL containing dashboard, login succeeds exactly when the continue
control becomes visible within 20000 ms. -/
theorem C9_continue_wait_is_twenty_seconds (env : LoginEnv)
    (h1 : env.goto_ok = true)
    (h2 : waitForVisible env.email_visible_at 30000 = true)
    (h3 : env.email_type_ok = true)
    (h5 : env.continue_click_ok = true)
    (h6 : waitForVisible env.password_visible_at 50000 = true)
    (h7 : env.password_type_ok = true)
    (h8 : waitForVisible env.signin_visible_at 20000 = true)
    (h9 : env.signin_click_ok = true)
    (h10 : strContains env.final_url "dashboard" = true) :
    login_to_dice env = waitForVisible env.continue_visible_at 20000 := by
  simp [login_to_dice_eq, loginStepsOk, h1, h2, h3, h5, h6, h7, h8, h9, h10]

/-- Claim C9 counterexample: a login run in which the continue control becomes
visible at 25000 ms, within the 30-second budget the claim states, and every
other step succeeds with a dashboard URL, yet login returns false, because
the source budgets this wait at 20000 ms (app.py line 160). -/
theorem C9_counterexample :
    waitForVisible loginLateContinueEnv.continue_visible_at 30000 = true ∧
    strContains loginLateContinueEnv.final_url "dashboard" = true ∧
    login_to_dice loginLateContinueEnv = false := by decide

theorem C9_witness :
    login_to_dice loginOkEnv = waitForVisible loginOkEnv.continue_visible_at 20000 :=
  C9_continue_wait_is_twenty_seconds loginOkEnv rfl (by decide) rfl rfl (by decide) rfl
    (by decide) rfl (by decide)

/-- Claim C5: the element resolver tries the candidate locators strictly in
the given order and returns the first candidate that passes its visibility
wait, enabled wait and scroll; for candidates A, B, C where A fails and B
succeeds, it returns candidate index 1 and the attempted list is exactly
the indices 0 then 1, so C is never attempted. -/
theorem C5_resolver_first_match (env : ResolverEnv) (A B C : CandidateEnv)
    (hload : env.load_ok = true)
    (hcands : env.candidates = [A, B, C])
    (hA : tryCandidate A = false)
    (hB : tryCandidate B = true) :
    (wait_for_easy_apply_button env).found = some 1 ∧
    (wait_for_easy_apply_button env).attempted = [0, 1] := by
  have ht : tryCandidates 0 [A, B, C] = ([0, 1], some 1) := by
    simp [tryCandidates, hA, hB]
  simp [wait_for_easy_apply_button, hload, hcands, ht]

theorem C5_witness :
    (wait_for_easy_apply_button resolverSecondEnv).found = some 1 ∧
    (wait_for_easy_apply_button resolverSecondEnv).attempted = [0, 1] :=
  C5_resolver_first_match resolverSecondEnv candidateFail candidateOk candidateFail
    rfl rfl (by decide) (by decide)

/-- Claim C3: login_to_dice returns true exactly when every scripted step
completes and the resulting URL contains dashboard or jobs; it is a total
function (every failing step is caught and yields false), and when it returns
false the apply endpoint answers 500 with message Login failed and never runs
the application workflow. -/
theorem C3_login_success_criterion :
    (∀ env : LoginEnv, login_to_dice env = true ↔
      (loginStepsOk env = true ∧
       (strContains env.final_url "dashboard" || strContains env.final_url "jobs") = true)) ∧
    (∀ (env : RequestEnv) (st : GlobalState) (url : String),
      env.job_url = some url → url.isEmpty = false →
      create_browser env.debug_mode env.launch_ok = .ok () →
      login_to_dice env.login = false →
      (apply_endpoint env st).response =
        { code := 500, message := some "Login failed", result := none } ∧
      AppAction.workflow ∉ (apply_endpoint env st).actions) := by
  constructor
  · intro env
    rw [login_to_dice_eq env]
    simp
  · intro env st url h hne hc hl
    unfold apply_endpoint
    rw [h]
    simp only [hne, Bool.false_eq_true, if_false, hc, hl]
    refine ⟨trivial, ?_⟩
    exact not_mem_pacing_append _ _ _ (fun n hn => by cases hn) (by decide)

theorem C3_witness :
    login_to_dice loginOkEnv = true ∧
    (apply_endpoint reqLoginFailEnv initialState).response =
      { code := 500, message := some "Login failed", result := none } ∧
    AppAction.workflow ∉ (apply_endpoint reqLoginFailEnv initialState).actions := by
  refine ⟨(C3_login_success_criterion.1 loginOkEnv).mpr (by decide), ?_, ?_⟩
  · exact (C3_login_success_criterion.2 reqLoginFailEnv initialState
      "https://www.dice.com/job-detail/abc" rfl (by decide) rfl (by decide)).1
  · exact (C3_login_success_criterion.2 reqLoginFailEnv initialState
      "https://www.dice.com/job-detail/abc" rfl (by decide) rfl (by decide)).2

def applyFailEnv : ApplyEnv := { applyOkEnv with goto_ok := false }

def applyExhaustEnv : ApplyEnv :=
  { applyOkEnv with resolver :=
      { load_ok := true, candidates := [candidateFail, candidateFail, candidateFail],
        screenshot_ok := true } }

/-- Claim C4: when any workflow step fails, apply_to_job catches the exception
at its boundary and returns a structured failure record with status failed,
the target URL, an error description and a timestamp; the function is total
(the best-effort screenshot of the handler is itself swallowed on failure, so
no exception reaches the HTTP boundary), and the step trace of the run has no
duplicates, so no step is retried. -/
theorem C4_workflow_failure_containment (env : ApplyEnv) (st : GlobalState) (url : String)
    (h : applyStepsOk env = false) :
    (apply_to_job env st url).result.status = "failed" ∧
    (apply_to_job env st url).result.job_url = url ∧
    (apply_to_job env st url).result.error.isSome = true ∧
    (apply_to_job env st url).result.timestamp = env.now ∧
    (apply_to_job env st url).steps.Nodup := by
  unfold applyStepsOk at h
  unfold apply_to_job
  cases h1 : env.goto_ok
  · simp [h1, failResult]
  · cases hr : (wait_for_easy_apply_button env.resolver).found with
    | none => simp [h1, hr, failResult]
    | some i =>
      cases h3 : env.easy_click_ok
      · simp [h1, hr, h3, failResult]
      · cases h4 : waitForVisible env.next_visible_at 30000
        · simp [h1, hr, h3, h4, failResult]
        · cases h5 : env.next_click_ok
          · simp [h1, hr, h3, h4, h5, failResult]
          · cases h6 : waitForVisible env.submit_visible_at 30000
            · simp [h1, hr, h3, h4, h5, h6, failResult]
            · cases h7 : env.submit_click_ok
              · simp [h1, hr, h3, h4, h5, h6, h7, failResult]
              · simp [h1, hr, h3, h4, h5, h6, h7] at h

theorem C4_witness :
    (apply_to_job applyFailEnv initialState "https://www.dice.com/job-detail/abc").result.status = "failed" ∧
    (apply_to_job applyFailEnv initialState "https://www.dice.com/job-detail/abc").result.job_url =
      "https://www.dice.com/job-detail/abc" ∧
    (apply_to_job applyFailEnv initialState "https://www.dice.com/job-detail/abc").result.error.isSome = true ∧
    (apply_to_job applyFailEnv initialState "https://www.dice.com/job-detail/abc").result.timestamp =
      applyFailEnv.now ∧
    (apply_to_job applyFailEnv initialState "https://www.dice.com/job-detail/abc").steps.Nodup :=
  C4_workflow_failure_containment applyFailEnv initialState
    "https://www.dice.com/job-detail/abc" (by decide)

/-- Claim C6 (amended): when the element resolver exhausts every candidate
locator, a screenshot artifact (no_easy_apply_button.png) is written before
the error propagates, and the workflow returns a failure record whose status
is failed and whose error is the message Easy Apply button not found with any
selector; but the returned record carries no screenshot reference: the failure
dict of app.py lines 306-311 has no screenshot key, so the reference is none
rather than non-null. -/
theorem C6_exhaustion_yields_failure_without_reference (env : ApplyEnv) (st : GlobalState)
    (url : String)
    (hg : env.goto_ok = true)
    (hl : env.resolver.load_ok = true)
    (hc : (tryCandidates 0 env.resolver.candidates).2 = none)
    (hs : env.resolver.screenshot_ok = true) :
    (apply_to_job env st url).result.status = "failed" ∧
    (apply_to_job env st url).result.error =
      some "Easy Apply button not found with any selector" ∧
    "no_easy_apply_button.png" ∈ (apply_to_job env st url).shots ∧
    (apply_to_job env st url).result.screenshot = none := by
  have hres : wait_for_easy_apply_button env.resolver =
      { found := none, errorMsg := "Easy Apply button not found with any selector",
        attempted := (tryCandidates 0 env.resolver.candidates).1,
        shots := ["no_easy_apply_button.png"] } := by
    unfold wait_for_easy_apply_button
    simp [hl, hc, hs]
  simp [apply_to_job, hg, hres, failResult, failShots]
  cases hf : env.fail_screenshot_ok <;> simp [hf]

theorem C6_witness :
    (apply_to_job applyExhaustEnv initialState "https://www.dice.com/job-detail/xyz").result.status = "failed" ∧
    (apply_to_job applyExhaustEnv initialState "https://www.dice.com/job-detail/xyz").result.error =
      some "Easy Apply button not found with any selector" ∧
    "no_easy_apply_button.png" ∈
      (apply_to_job applyExhaustEnv initialState "https://www.dice.com/job-detail/xyz").shots ∧
    (apply_to_job applyExhaustEnv initialState "https://www.dice.com/job-detail/xyz").result.screenshot = none :=
  C6_exhaustion_yields_failure_without_reference applyExhaustEnv initialState
    "https://www.dice.com/job-detail/xyz" rfl rfl (by decide) rfl

/-- Claim C6 counterexample: a run in which the resolver tries and exhausts
all three candidate locators; the workflow returns the failed record with the
not-found error, but the screenshot reference in the record is none, not
non-null: the failure dict of the source has no screenshot key at all. -/
theorem C6_counterexample :
    (wait_for_easy_apply_button applyExhaustEnv.resolver).found = none ∧
    (wait_for_easy_apply_button applyExhaustEnv.resolver).attempted = [0, 1, 2] ∧
    (apply_to_job applyExhaustEnv initialState "https://www.dice.com/job-detail/abc").result.status = "failed" ∧
    (apply_to_job applyExhaustEnv initialState "https://www.dice.com/job-detail/abc").result.error =
      some "Easy Apply button not found with any selector" ∧
    (apply_to_job applyExhaustEnv initialState "https://www.dice.com/job-detail/abc").result.screenshot = none := by
  decide

/-- Claim C7: a workflow run in which every step succeeds sets the pacing
timestamp to the completion time, increments the application counter by
exactly one, and returns a success record carrying the target URL, the new
counter value as application number and a timestamp. -/
theorem C7_success_updates_tracking (env : ApplyEnv) (st : GlobalState) (url : String)
    (h : applyStepsOk env = true) :
    (apply_to_job env st url).state.last_application_time = some env.now ∧
    (apply_to_job env st url).state.application_count = st.application_count + 1 ∧
    (apply_to_job env st url).result.status = "success" ∧
    (apply_to_job env st url).result.job_url = url ∧
    (apply_to_job env st url).result.application_number = some (st.application_count + 1) ∧
    (apply_to_job env st url).result.timestamp = env.now := by
  unfold applyStepsOk at h
  simp only [Bool.and_eq_true] at h
  obtain ⟨⟨⟨⟨⟨⟨h1, h2⟩, h3⟩, h4⟩, h5⟩, h6⟩, h7⟩ := h
  obtain ⟨i, hr⟩ := Option.isSome_iff_exists.mp h2
  unfold apply_to_job
  simp [h1, hr, h3, h4, h5, h6, h7]

theorem C7_witness :
    (apply_to_job applyOkEnv initialState "https://www.dice.com/job-detail/abc").result.application_number = some 1 ∧
    (apply_to_job applyOkEnv initialState "https://www.dice.com/job-detail/abc").state.application_count = 1 ∧
    (apply_to_job applyOkEnv initialState "https://www.dice.com/job-detail/abc").result.status = "success" := by
  have h := C7_success_updates_tracking applyOkEnv initialState
    "https://www.dice.com/job-detail/abc" (by decide)
  exact ⟨h.2.2.2.2.1, h.2.1, h.2.2.1⟩

/-- Claim C10: a workflow run that ends in a failure record leaves both
last_application_time and application_count unchanged, so a later request
incurs exactly the pacing delay it would have incurred had the failed
attempt not happened. -/
theorem C10_failed_attempt_preserves_tracking (env : ApplyEnv) (st : GlobalState) (url : String)
    (h : (apply_to_job env st url).result.status = "failed") :
    (apply_to_job env st url).state = st ∧
    (∀ now w, enforce_human_pacing (apply_to_job env st url).state.last_application_time now w =
              enforce_human_pacing st.last_application_time now w) := by
  have hstate : (apply_to_job env st url).state = st := by
    unfold apply_to_job at h ⊢
    cases h1 : env.goto_ok
    · simp [h1]
    · cases hr : (wait_for_easy_apply_button env.resolver).found with
      | none => simp [h1, hr]
      | some i =>
        cases h3 : env.easy_click_ok
        · simp [h1, hr, h3]
        · cases h4 : waitForVisible env.next_visible_at 30000
          · simp [h1, hr, h3, h4]
          · cases h5 : env.next_click_ok
            · simp [h1, hr, h3, h4, h5]
            · cases h6 : waitForVisible env.submit_visible_at 30000
              · simp [h1, hr, h3, h4, h5, h6]
              · cases h7 : env.submit_click_ok
                · simp [h1, hr, h3, h4, h5, h6, h7]
                · simp [h1, hr, h3, h4, h5, h6, h7] at h
  exact ⟨hstate, fun now w => by rw [hstate]⟩

theorem C10_witness :
    (apply_to_job applyFailEnv initialState "https://www.dice.com/job-detail/xyz").state = initialState ∧
    enforce_human_pacing
      (apply_to_job applyFailEnv initialState "https://www.dice.com/job-detail/xyz").state.last_application_time
      600 150 =
    enforce_human_pacing initialState.last_application_time 600 150 := by
  have h := C10_failed_attempt_preserves_tracking applyFailEnv initialState
    "https://www.dice.com/job-detail/xyz" (by decide)
  exact ⟨h.1, h.2 600 150⟩

def reqOkEnv : RequestEnv :=
  { job_url := some "https://www.dice.com/job-detail/abc", now := 500, required_wait := 120,
    debug_mode := true, launch_ok := true, login := loginOkEnv, workflowEnv := applyOkEnv }

def reqOkEnv2 : RequestEnv :=
  { reqOkEnv with now := 1200, workflowEnv := { applyOkEnv with now := 1700 } }

def reqProdEnv : RequestEnv := { reqOkEnv with debug_mode := false }

/-- Claim C1 (amended): the endpoint maintains no session across requests.
Every apply request carrying a job url performs createSession anew, whatever
the prior global state; and whenever session creation succeeds the request
also performs login and tears the browser down before returning, so no
authenticated session survives to the next request. -/
theorem C1_every_request_creates_session (env : RequestEnv) (st : GlobalState) (url : String)
    (h : env.job_url = some url) (hne : url.isEmpty = false) :
    AppAction.createSession ∈ (apply_endpoint env st).actions ∧
    (create_browser env.debug_mode env.launch_ok = .ok () →
      AppAction.login ∈ (apply_endpoint env st).actions ∧
      AppAction.closeBrowser ∈ (apply_endpoint env st).actions) := by
  unfold apply_endpoint
  rw [h]
  simp only [hne, Bool.false_eq_true, if_false]
  cases hcb : create_browser env.debug_mode env.launch_ok with
  | error e => simp [hcb]
  | ok u => cases hlg : login_to_dice env.login <;> simp [hlg]

/-- Claim C1 counterexample: a fully successful apply request authenticates a
session and completes exactly one application in it, far under the quota of 15
and the 7200-second maximum age the specification assigns to an Active
session; yet the endpoint closes that browser before returning, and the
immediately following request performs createSession and login again instead
of reusing the session. -/
theorem C1_counterexample :
    (apply_endpoint reqOkEnv initialState).response.code = 200 ∧
    (apply_endpoint reqOkEnv initialState).state.application_count = 1 ∧
    (apply_endpoint reqOkEnv initialState).state.last_application_time = some 1000 ∧
    AppAction.closeBrowser ∈ (apply_endpoint reqOkEnv initialState).actions ∧
    AppAction.createSession ∈
      (apply_endpoint reqOkEnv2 (apply_endpoint reqOkEnv initialState).state).actions ∧
    AppAction.login ∈
      (apply_endpoint reqOkEnv2 (apply_endpoint reqOkEnv initialState).state).actions := by
  decide

theorem C1_witness :
    AppAction.createSession ∈
      (apply_endpoint reqOkEnv2
        { last_application_time := some 1000, application_count := 1 }).actions ∧
    AppAction.login ∈
      (apply_endpoint reqOkEnv2
        { last_application_time := some 1000, application_count := 1 }).actions := by
  have h := C1_every_request_creates_session reqOkEnv2
    { last_application_time := some 1000, application_count := 1 }
    "https://www.dice.com/job-detail/abc" rfl (by decide)
  exact ⟨h.1, (h.2 rfl).1⟩

/-- Claim C8: with DEBUG_MODE false the production launch branch evaluates the
bare name false, which is bound neither locally, nor at module level, nor as a
keyword constant, so create_browser fails with NameError for every launch
outcome; consequently every production-mode apply request carrying a job url
is answered 500 with the NameError text, and login is never attempted. -/
theorem C8_production_name_error :
    (∀ launch_ok : Bool, create_browser false launch_ok = .error (.nameError "false")) ∧
    (∀ (env : RequestEnv) (st : GlobalState) (url : String),
      env.debug_mode = false → env.job_url = some url → url.isEmpty = false →
      (apply_endpoint env st).response.code = 500 ∧
      (apply_endpoint env st).response.message = some "name \x27false\x27 is not defined" ∧
      AppAction.login ∉ (apply_endpoint env st).actions) := by
  have hcb : ∀ launch_ok : Bool, create_browser false launch_ok = .error (.nameError "false") := by
    intro l
    cases l <;> rfl
  refine ⟨hcb, ?_⟩
  intro env st url hd h hne
  unfold apply_endpoint
  rw [h]
  simp only [hne, Bool.false_eq_true, if_false]
  rw [hd, hcb env.launch_ok]
  refine ⟨rfl, rfl, ?_⟩
  exact not_mem_pacing_append _ _ _ (fun n hn => by cases hn) (by decide)

theorem C8_witness :
    create_browser false true = .error (.nameError "false") ∧
    (apply_endpoint reqProdEnv initialState).response.code = 500 ∧
    (apply_endpoint reqProdEnv initialState).response.message =
      some "name \x27false\x27 is not defined" ∧
    AppAction.login ∉ (apply_endpoint reqProdEnv initialState).actions := by
  have h := C8_production_name_error
  have h2 := h.2 reqProdEnv initialState "https://www.dice.com/job-detail/abc" rfl rfl (by decide)
  exact ⟨h.1 true, h2.1, h2.2.1, h2.2.2⟩
